import Mathlib

/-!
Verification of the `specifytest` integrity engine against its specification.

The development shallowly embeds the Python sources:
  * `scripts/check-staleness.py` (staleness analyzer),
  * `.specify/scripts/generate-type-registry.py` (template introspector / registry cache),
  * `scripts/validate-specs.py` (two-pass validator).

Conventions of the embedding:
  * Timestamps are modelled as seconds since the epoch (`Nat`); Python
    `timedelta.days` on a positive difference is floor division by 86400.
  * Parsed YAML values are modelled by the inductive `YVal`; Python dictionaries
    become association lists (first binding wins, as in `dict.get`).
  * Diagnostic messages built with f-strings in the source are modelled
    structurally by the inductive `Msg`, keeping exactly the data interpolated
    into the corresponding Python message.
  * File contents handled line-wise by the registry generator are modelled as
    `List String` (the result of Python `content.split("\n")`), assuming the
    interpolated fragments themselves contain no newline.
-/

namespace SpecifyTest

/-! ### Staleness analyzer (`scripts/check-staleness.py`) -/

/-- Priority tiers of `calculate_staleness` (the keys of its result dict). -/
inductive Tier where
  | critical
  | high
  | medium
  | low
  | upToDate
deriving DecidableEq, Repr

/-- Number of seconds in a day, used by Python `timedelta.days`. -/
def secondsPerDay : Nat := 86400

/-- Python `days_stale = (case_timestamp - impl_timestamp).days` for
`case_timestamp > impl_timestamp`: whole days of the positive difference
(timestamps in epoch seconds). -/
def days_stale (caseTs implTs : Nat) : Nat :=
  (caseTs - implTs) / secondsPerDay

/-- Classification of one (case, impl) timestamp pair, from the body of
`calculate_staleness` (check-staleness.py lines 131-145): strictly newer case
timestamps are binned by `days_stale` (`>30` critical, `>7` high, `>=1` medium,
else low); otherwise the pair is up to date. -/
def classify_staleness (caseTs implTs : Nat) : Tier :=
  if implTs < caseTs then
    if 30 < days_stale caseTs implTs then .critical
    else if 7 < days_stale caseTs implTs then .high
    else if 1 ≤ days_stale caseTs implTs then .medium
    else .low
  else .upToDate

/-- Day number of a Gregorian calendar date counted from the civil epoch
1970-01-01 (standard era-based civil-from-days computation); stands in for
Python `datetime` arithmetic on midnight UTC instants. -/
def days_from_civil (y m d : Int) : Int :=
  let y' : Int := if m ≤ 2 then y - 1 else y
  let era : Int := (if 0 ≤ y' then y' else y' - 399) / 400
  let yoe : Int := y' - era * 400
  let mp : Int := (m + 9) % 12
  let doy : Int := (153 * mp + 2) / 5 + d - 1
  let doe : Int := yoe * 365 + yoe / 4 - yoe / 100 + doy
  era * 146097 + doe - 719468

/-- Epoch seconds of midnight UTC on a civil date (dates from 1970 on). -/
def midnightUtc (y m d : Int) : Nat :=
  (days_from_civil y m d).toNat * secondsPerDay

/-- Pairing logic of `find_implementation_references`
(check-staleness.py lines 96-102): the i-th `Implements` match is paired with
the i-th `Case Timestamp` match; an index with no timestamp, or whose timestamp
fails to parse (`parse` returns `none`), contributes nothing.  `parse` abstracts
`parse_iso_timestamp` applied to the matched timestamp string. -/
def pairReferences (parse : String → Option Nat)
    (caseMatches timestampMatches : List String) : List (String × Nat) :=
  go 0 caseMatches
where
  go (i : Nat) : List String → List (String × Nat)
    | [] => []
    | c :: cs =>
      match timestampMatches[i]? with
      | some t =>
        match parse t with
        | some ts => (c, ts) :: go (i + 1) cs
        | none => go (i + 1) cs
      | none => go (i + 1) cs

/-! ### Diagnostics of the validator (`scripts/validate-specs.py`) -/

/-- Severity levels of `ValidationError` (validate-specs.py line 29). -/
inductive Severity where
  | error
  | warning
  | info
deriving DecidableEq, Repr

/-- A parsed YAML value, the result of Python `yaml.safe_load`.  Dictionaries
are association lists; a key's first binding is the one `dict` operations
see. -/
inductive YVal where
  | ystr (s : String)
  | yint (n : Int)
  | ybool (b : Bool)
  | ydatetime (epochSec : Int)
  | ynull
  | ylist (xs : List YVal)
  | ydict (entries : List (String × YVal))

mutual

/-- Structural equality of parsed YAML values (Python `==`, set membership). -/
def YVal.beq : YVal → YVal → Bool
  | .ystr a, .ystr b => a == b
  | .yint a, .yint b => a == b
  | .ybool a, .ybool b => a == b
  | .ydatetime a, .ydatetime b => a == b
  | .ynull, .ynull => true
  | .ylist as, .ylist bs => YVal.beqList as bs
  | .ydict as, .ydict bs => YVal.beqDict as bs
  | _, _ => false

/-- Elementwise equality of YAML lists. -/
def YVal.beqList : List YVal → List YVal → Bool
  | [], [] => true
  | a :: as, b :: bs => YVal.beq a b && YVal.beqList as bs
  | _, _ => false

/-- Elementwise equality of YAML dictionaries. -/
def YVal.beqDict : List (String × YVal) → List (String × YVal) → Bool
  | [], [] => true
  | a :: as, b :: bs => (a.1 == b.1 && YVal.beq a.2 b.2) && YVal.beqDict as bs
  | _, _ => false

end

instance : BEq YVal := ⟨YVal.beq⟩

/-- Python truthiness of a parsed YAML value (`if not content`, `if phase_id`,
and similar tests in the source). -/
def ytruthy : YVal → Bool
  | .ystr s => !s.isEmpty
  | .yint n => n != 0
  | .ybool b => b
  | .ydatetime _ => true
  | .ynull => false
  | .ylist xs => !xs.isEmpty
  | .ydict es => !es.isEmpty

/-- Python `d.get(k)`: `some` value of the first binding of `k`, else `none`.
Non-dictionaries have no keys (the source only calls `.get` on parsed
dictionaries). -/
def yget (v : YVal) (k : String) : Option YVal :=
  match v with
  | .ydict es => (es.find? (fun e => e.1 == k)).map (fun e => e.2)
  | _ => none

/-- Python `k in d`: key membership, regardless of the value's truthiness. -/
def yhasKey (v : YVal) (k : String) : Bool :=
  match v with
  | .ydict es => es.any (fun e => e.1 == k)
  | _ => false

/-- Python `str.startswith`, as a character-prefix test. -/
def strStartsWith (s p : String) : Bool :=
  p.data.isPrefixOf s.data

/-- Diagnostic messages of the validator, modelled structurally: each
constructor corresponds to one f-string in validate-specs.py and carries
exactly the data interpolated there. -/
inductive Msg where
  | emptyYaml
  | missingType
  | missingFrontmatter
  | missingTypeFrontmatter
  | missingRequiredField (field : String)
  | unknownSpecType (ty : YVal)
  | invalidIdFormat (id pfx : String) (ty : YVal)
  | filenameMismatch (filename id : String)
  | yamlExtForNonCase (ty : YVal)
  | ymlExt
  | mdExtForCase (ty : YVal)
  | invalidTimestampType
  | invalidTimestampFormat (s : String)
  | invalidTimestampValue (s : String)
  | invalidStatus (v : YVal)
  | duplicateSpecId (id firstPath : String)
  | refNotFound (id : String)
  | phasesNotList
  | emptyPhases
  | phaseNotDict (position : Nat)
  | phaseMissingField (position : Nat) (field : String)
  | duplicatePhaseId (pid : YVal)
  | preconditionsNotList (pid : Option YVal)
  | testCasesNotList (pid : Option YVal)
  | preconditionMissingPath (pid : Option YVal) (position : Nat)
  | testCaseMissingPath (pid : Option YVal) (position : Nat)
  | casePathNotSpecs (path : String)
  | casePathWrongDir (expected : String) (path : String)
  | casePathNotYaml (path : String)
  | missingSection (sectionTitle : String)

/-- A `ValidationError` record (validate-specs.py lines 25-31): file path,
severity, message. -/
structure Diag where
  file : String
  severity : Severity
  message : Msg

/-- The `stats` severity counting of `validate_directory` (lines 726-733):
diagnostics of one severity. -/
def severityCount (diags : List Diag) (sev : Severity) : Nat :=
  (diags.filter (fun d => d.severity == sev)).length

/-- Exit code computed from the recorded diagnostics: `print_report` returns 1
when `stats.errors > 0` and 0 otherwise (lines 756-764); the `--json` branch
exits with the same condition (line 865). -/
def report_exit_code (diags : List Diag) : Nat :=
  if 0 < severityCount diags .error then 1 else 0

/-- The exit behaviour of `main` (lines 815-868): a nonexistent input path
exits 2 before any validator is constructed, so no diagnostics are recorded;
otherwise the run records the validator's diagnostics and exits by
`report_exit_code`. -/
def validation_main (pathExists : Bool) (diags : List Diag) : Nat × List Diag :=
  if !pathExists then (2, []) else (report_exit_code diags, diags)

/-! ### Timestamp validation (`validate_timestamp`, validate-specs.py 258-293) -/

/-- The fields read out of a string matching the regex
`^\d{4}-\d{2}-\d{2}T\d{2}:\d{2}:\d{2}Z$`: (year, month, day, hour, minute,
second) digit groups.  `none` when the string does not match. -/
def timestampFields (s : String) : Option (Nat × Nat × Nat × Nat × Nat × Nat) :=
  match s.toList with
  | [y1, y2, y3, y4, '-', mo1, mo2, '-', d1, d2, 'T',
     h1, h2, ':', mi1, mi2, ':', se1, se2, 'Z'] =>
    if [y1, y2, y3, y4, mo1, mo2, d1, d2, h1, h2, mi1, mi2, se1, se2].all Char.isDigit then
      some (dd y1 y2 * 100 + dd y3 y4, dd mo1 mo2, dd d1 d2, dd h1 h2, dd mi1 mi2, dd se1 se2)
    else
      none
  | _ => none
where
  dd (a b : Char) : Nat := (a.toNat - 48) * 10 + (b.toNat - 48)

/-- Gregorian leap year. -/
def isLeapYear (y : Nat) : Bool :=
  y % 4 == 0 && (y % 100 != 0 || y % 400 == 0)

/-- Days in a month of a year. -/
def daysInMonth (y m : Nat) : Nat :=
  if m == 2 then (if isLeapYear y then 29 else 28)
  else if m == 4 || m == 6 || m == 9 || m == 11 then 30
  else 31

/-- Calendar validity applied by
`datetime.strptime(timestamp, "%Y-%m-%dT%H:%M:%SZ")`: a representable
`datetime`. -/
def calendarOk (f : Nat × Nat × Nat × Nat × Nat × Nat) : Bool :=
  let (y, m, d, h, mi, se) := f
  1 ≤ y && 1 ≤ m && m ≤ 12 && 1 ≤ d && d ≤ daysInMonth y m && h ≤ 23 && mi ≤ 59 && se ≤ 59

/-- Model of `validate_timestamp` (validate-specs.py lines 258-293): a value the YAML
parser already materialised as a `datetime` is accepted immediately; a
non-string non-datetime is a type error; a string must match the strict
pattern and denote a representable calendar datetime.  Returns the function's
boolean result and the diagnostics it appends. -/
def validate_timestamp (file : String) : YVal → Bool × List Diag
  | .ydatetime _ => (true, [])
  | .ystr s =>
    match timestampFields s with
    | none => (false, [⟨file, .error, .invalidTimestampFormat s⟩])
    | some f =>
      if calendarOk f then (true, [])
      else (false, [⟨file, .error, .invalidTimestampValue s⟩])
  | _ => (false, [⟨file, .error, .invalidTimestampType⟩])

/-! ### Per-document rule checks (`scripts/validate-specs.py`) -/

/-- The `VALID_STATUSES` list (line 47). -/
def VALID_STATUSES : List String := ["draft", "ready", "active", "deprecated"]

/-- The case types (lines 236, 249). -/
def caseTypes : List String := ["TestCase", "ScenarioCase", "PreconditionCase"]

/-- Type rules extracted from one template by `_extract_template_info`: the
identifier prefix (`pfx` models the `prefix` key) and the required-field
list. -/
structure TypeInfo where
  pfx : String
  required_fields : List String

/-- The validator's configuration: the introspected type registry
(`spec_type_info`) and the `check_filenames` / `check_refs` flags. -/
structure VCtx where
  spec_type_info : List (String × TypeInfo)
  check_filenames : Bool
  check_refs : Bool

/-- Python `self.spec_type_info.get(spec_type)`: the declared type value is a
dictionary key, so only string values can be registered. -/
def lookupType (ctx : VCtx) (tyv : YVal) : Option TypeInfo :=
  match tyv with
  | .ystr s => (ctx.spec_type_info.find? (fun e => e.1 == s)).map (fun e => e.2)
  | _ => none

/-- Matching a literal character sequence at the head of the input; `some`
returns the unconsumed remainder. -/
def matchLiteral : List Char → List Char → Option (List Char)
  | [], cs => some cs
  | p :: ps, c :: cs => if p == c then matchLiteral ps cs else none
  | _ :: _, [] => none

/-- Regex `[0-9]*$` against what follows a first digit: further digits up to the end
of the string, where, as in Python `re`, `$` also matches just before one
final newline. -/
def moreDigits : List Char → Bool
  | [] => true
  | c :: cs => if c.isDigit then moreDigits cs else (c == '\n' && cs.isEmpty)

/-- Regex `[0-9]+$` against the remainder: one or more ASCII digits up to the end of
the string (`$` as in `moreDigits`). -/
def idTailMatches : List Char → Bool
  | [] => false
  | c :: cs => c.isDigit && moreDigits cs

/-- Model of `re.match` against the pattern built at lines 308-310 for a
literal prefix: the prefix, a hyphen, then one or more digits to the end. -/
def idMatches (pfx spec_id : String) : Bool :=
  match matchLiteral (pfx.data ++ ['-']) spec_id.data with
  | some rest => idTailMatches rest
  | none => false

/-- Model of `validate_id_format` (lines 295-318): a declared type with no registered
template yields one warning; otherwise the identifier must match the
registered prefix pattern, any deviation yielding one error. -/
def validate_id_format (ctx : VCtx) (spec_id : String) (tyv : YVal)
    (file : String) : List Diag :=
  match lookupType ctx tyv with
  | none => [⟨file, .warning, .unknownSpecType tyv⟩]
  | some ti =>
    if idMatches ti.pfx spec_id then []
    else [⟨file, .error, .invalidIdFormat spec_id ti.pfx tyv⟩]

/-- A spec file's path data: the printed path, `Path.stem` and
`Path.suffix`. -/
structure SpecFile where
  path : String
  stem : String
  suffix : String

/-- Model of `validate_filename` (lines 216-256): skipped entirely when filename checks
are off or the type is unregistered; a stem differing from the identifier is
one warning (and ends the check); otherwise the extension must agree with
whether the type is a case type. -/
def validate_filename (ctx : VCtx) (f : SpecFile) (spec_id : String)
    (tyv : YVal) : List Diag :=
  if !ctx.check_filenames then []
  else
    match lookupType ctx tyv with
    | none => []
    | some _ =>
      if spec_id != f.stem then
        [⟨f.path, .warning, .filenameMismatch f.stem spec_id⟩]
      else if f.suffix.toLower == ".yaml" then
        (match tyv with
         | .ystr s => if caseTypes.contains s then [] else [⟨f.path, .error, .yamlExtForNonCase tyv⟩]
         | _ => [⟨f.path, .error, .yamlExtForNonCase tyv⟩])
      else if f.suffix.toLower == ".yml" then
        [⟨f.path, .error, .ymlExt⟩]
      else if f.suffix.toLower == ".md" then
        (match tyv with
         | .ystr s => if caseTypes.contains s then [⟨f.path, .error, .mdExtForCase tyv⟩] else []
         | _ => [])
      else []

/-- Model of `check_duplicate_id` (lines 413-425): an identifier already recorded in
`all_spec_ids` yields one error naming the first-seen path and leaves the map
unchanged; a fresh identifier is recorded with its path. -/
def check_duplicate_id (seen : List (String × String)) (spec_id file : String) :
    List (String × String) × List Diag :=
  match seen.find? (fun e => e.1 == spec_id) with
  | some e => (seen, [⟨file, .error, .duplicateSpecId spec_id e.2⟩])
  | none => (seen ++ [(spec_id, file)], [])

/-- Python `str.endswith`. -/
def strEndsWith (s p : String) : Bool :=
  p.data.isSuffixOf s.data

/-- Model of `validate_case_path` (lines 443-475): a path not under `/specs/` is one
error and ends the check; otherwise a directory-convention warning for the
expected kind and an extension error may each be recorded. -/
def validate_case_path (file path expected : String) : List Diag :=
  if !(strStartsWith path "/specs/") then
    [⟨file, .error, .casePathNotSpecs path⟩]
  else
    (if expected == "TC" && !(strStartsWith path "/specs/test-cases/") then
      [⟨file, .warning, .casePathWrongDir "/specs/test-cases/" path⟩]
    else if expected == "PC" && !(strStartsWith path "/specs/precondition-cases/") then
      [⟨file, .warning, .casePathWrongDir "/specs/precondition-cases/" path⟩]
    else [])
    ++ (if !(strEndsWith path ".yaml") then [⟨file, .error, .casePathNotYaml path⟩] else [])

/-- The phase fields required by `validate_scenario_phases` (line 351). -/
def requiredPhaseFields : List String :=
  ["phase_id", "phase_name", "description", "preconditions", "test_cases"]

/-- The per-phase required-field errors (lines 351-358). -/
def phaseMissingFieldDiags (file : String) (pos : Nat) (ph : YVal) : List Diag :=
  requiredPhaseFields.filterMap (fun fd =>
    if yhasKey ph fd then none else some ⟨file, .error, .phaseMissingField pos fd⟩)

/-- The per-entry loop over a phase's `preconditions` or `test_cases` list
(lines 380-409): non-dictionary entries are skipped silently; a dictionary
without `path` is one error; otherwise the path is checked by
`validate_case_path` with the expected kind.  A non-string `path` value, which
would raise out of the whole document validation in Python, is outside the
modelled fragment and contributes nothing here. -/
def refEntryDiags (file : String) (pid : Option YVal) (isPre : Bool) (pos : Nat)
    (x : YVal) : List Diag :=
  match x with
  | .ydict _ =>
    (match yget x "path" with
     | none =>
       [⟨file, .error,
         if isPre then .preconditionMissingPath pid pos else .testCaseMissingPath pid pos⟩]
     | some (.ystr s) => validate_case_path file s (if isPre then "PC" else "TC")
     | some _ => [])
  | _ => []

/-- The iteration of the entry checks over the whole list, with the 1-based
position used in messages. -/
def refEntriesDiags (file : String) (pid : Option YVal) (isPre : Bool) :
    Nat → List YVal → List Diag
  | _, [] => []
  | pos, x :: rest =>
    refEntryDiags file pid isPre pos x ++ refEntriesDiags file pid isPre (pos + 1) rest

/-- Validation of a phase's `preconditions` or `test_cases` value (lines
372-379, 392-399): a non-list is one error, a list is checked entrywise. -/
def caseRefDiags (file : String) (pid : Option YVal) (isPre : Bool) (v : YVal) :
    List Diag :=
  match v with
  | .ylist xs => refEntriesDiags file pid isPre 1 xs
  | _ =>
    [⟨file, .error, if isPre then .preconditionsNotList pid else .testCasesNotList pid⟩]

/-- The phase loop of `validate_scenario_phases` (lines 341-409), threading
the `phase_ids` set and the 1-based position used in messages: a non-dict
phase is one error; a dict phase yields its required-field errors, a duplicate
error when its truthy `phase_id` was already seen (the id is then re-added, a
set no-op), and its reference-list diagnostics. -/
def phasesLoopDiags (file : String) : Nat → List YVal → List YVal → List Diag
  | _, _, [] => []
  | pos, seenIds, ph :: rest =>
    match ph with
    | .ydict _ =>
      let pid := yget ph "phase_id"
      let dupDiags :=
        match pid with
        | some p =>
          if ytruthy p && seenIds.contains p then [⟨file, .error, .duplicatePhaseId p⟩] else []
        | none => []
      let newIds :=
        match pid with
        | some p => if ytruthy p then seenIds ++ [p] else seenIds
        | none => seenIds
      phaseMissingFieldDiags file pos ph ++ dupDiags
        ++ caseRefDiags file pid true ((yget ph "preconditions").getD (.ylist []))
        ++ caseRefDiags file pid false ((yget ph "test_cases").getD (.ylist []))
        ++ phasesLoopDiags file (pos + 1) newIds rest
    | _ => ⟨file, .error, .phaseNotDict pos⟩ :: phasesLoopDiags file (pos + 1) seenIds rest

/-- Model of `validate_scenario_phases` (lines 320-411): `content.get('phases', [])`
must be a list; an empty list is one warning; otherwise the phases are checked
in order. -/
def validate_scenario_phases (file : String) (content : YVal) : List Diag :=
  match (yget content "phases").getD (.ylist []) with
  | .ylist ps =>
    if ps.isEmpty then [⟨file, .warning, .emptyPhases⟩]
    else phasesLoopDiags file 1 [] ps
  | _ => [⟨file, .error, .phasesNotList⟩]

/-- Whether every dictionary entry of a reference list carries a string-valued
`path` when it carries one at all: the fragment of inputs on which the Python
loop runs to completion instead of raising out of the document. -/
def pathValuesClean (v : YVal) : Bool :=
  match v with
  | .ylist xs =>
    xs.all (fun x =>
      match x with
      | .ydict _ =>
        match yget x "path" with
        | some (.ystr _) => true
        | some _ => false
        | none => true
      | _ => true)
  | _ => true

/-- A phase whose reference lists are exception-free in the sense of
`pathValuesClean`. -/
def phaseClean (ph : YVal) : Bool :=
  pathValuesClean ((yget ph "preconditions").getD (.ylist []))
    && pathValuesClean ((yget ph "test_cases").getD (.ylist []))

/-- Model of `validate_references` (lines 427-441): nothing is checked when
cross-reference checking is off or the `related` value is falsy; each list
entry contributes its identifier (the entry itself when a string, its `id`
value when a dictionary) and a truthy identifier absent from `all_spec_ids`
is one warning. -/
def validate_references (ctx : VCtx) (seen : List (String × String))
    (file : String) (refs : YVal) : List Diag :=
  if !ctx.check_refs || !(ytruthy refs) then []
  else
    match refs with
    | .ylist rs =>
      rs.filterMap (fun r =>
        let rid : Option String :=
          match r with
          | .ystr s => some s
          | .ydict _ =>
            match yget r "id" with
            | some (.ystr s) => some s
            | _ => none
          | _ => none
        match rid with
        | some i =>
          if !i.isEmpty && !(seen.any (fun e => e.1 == i)) then
            some ⟨file, .warning, .refNotFound i⟩
          else none
        | none => none)
    | _ => []

/-- The status check shared by both document validators (lines 524-530,
609-615): only a string among `VALID_STATUSES` passes. -/
def statusDiags (file : String) (content : YVal) : List Diag :=
  match yget content "status" with
  | some sv =>
    (match sv with
     | .ystr s => if VALID_STATUSES.contains s then [] else [⟨file, .warning, .invalidStatus sv⟩]
     | _ => [⟨file, .warning, .invalidStatus sv⟩])
  | none => []

/-- The required-field check of both document validators (lines 501-511,
586-596): key membership against the declared type's required-field list. -/
def requiredFieldDiags (file : String) (content : YVal) (fields : List String) :
    List Diag :=
  fields.filterMap (fun fd =>
    if yhasKey content fd then none else some ⟨file, .error, .missingRequiredField fd⟩)

/-- The identifier chain of both document validators (lines 513-517, 598-602),
run when the record carries an `id` key: `validate_id_format`,
`validate_filename`, `check_duplicate_id`, threading `all_spec_ids`.  A
non-string `id` value, which would raise out of the document validation in
Python, is outside the modelled fragment and skips the chain like an absent
key. -/
def idChain (ctx : VCtx) (seen : List (String × String)) (f : SpecFile)
    (content : YVal) (tyv : YVal) : List (String × String) × List Diag :=
  match yget content "id" with
  | some (.ystr sid) =>
    let d1 := validate_id_format ctx sid tyv f.path
    let d2 := validate_filename ctx f sid tyv
    let r := check_duplicate_id seen sid f.path
    (r.1, d1 ++ d2 ++ r.2)
  | _ => (seen, [])

/-- The timestamp check of both document validators (lines 519-521, 604-606),
run when the record carries a `hash_timestamp` key. -/
def timestampDiags (file : String) (content : YVal) : List Diag :=
  match yget content "hash_timestamp" with
  | some tsv => (validate_timestamp file tsv).2
  | none => []

/-- Model of `validate_yaml_case` (lines 477-555) after a successful
`yaml.safe_load`, for parsed mappings (values on which Python attribute
errors would fire are outside the modelled fragment): a falsy record is the
single `Empty YAML file` error, a record without a truthy `type` is the
single missing-type error and nothing further runs; otherwise the rule
checks run in source order, threading `all_spec_ids` through the duplicate
check.  Returns the updated map and the appended diagnostics. -/
def validate_yaml_case (ctx : VCtx) (seen : List (String × String)) (f : SpecFile)
    (content : YVal) : List (String × String) × List Diag :=
  if !(ytruthy content) then (seen, [⟨f.path, .error, .emptyYaml⟩])
  else
    match yget content "type" with
    | none => (seen, [⟨f.path, .error, .missingType⟩])
    | some tyv =>
      if !(ytruthy tyv) then (seen, [⟨f.path, .error, .missingType⟩])
      else
        let reqDiags :=
          match lookupType ctx tyv with
          | some ti => requiredFieldDiags f.path content ti.required_fields
          | none => []
        let idStep := idChain ctx seen f content tyv
        let phaseDiags :=
          if tyv == YVal.ystr "ScenarioCase" && yhasKey content "phases" then
            validate_scenario_phases f.path content
          else []
        let refDiags :=
          match yget content "related" with
          | some rv => validate_references ctx idStep.1 f.path rv
          | none => []
        (idStep.1,
          reqDiags ++ idStep.2 ++ timestampDiags f.path content
            ++ statusDiags f.path content ++ phaseDiags ++ refDiags)

/-- Model of `validate_markdown_spec` (lines 557-646) after reading the file:
`fm` is the parsed frontmatter when the frontmatter delimiters were found,
`hasValidationCases` / `hasImplementationReferences` record whether the two
recommended section headings occur in the body.  Missing frontmatter or a
missing truthy `type` is a single error ending the check. -/
def validate_markdown_spec (ctx : VCtx) (seen : List (String × String))
    (f : SpecFile) (fm : Option YVal)
    (hasValidationCases hasImplementationReferences : Bool) :
    List (String × String) × List Diag :=
  match fm with
  | none => (seen, [⟨f.path, .error, .missingFrontmatter⟩])
  | some frontmatter =>
    match yget frontmatter "type" with
    | none => (seen, [⟨f.path, .error, .missingTypeFrontmatter⟩])
    | some tyv =>
      if !(ytruthy tyv) then (seen, [⟨f.path, .error, .missingTypeFrontmatter⟩])
      else
        let reqDiags :=
          match lookupType ctx tyv with
          | some ti => requiredFieldDiags f.path frontmatter ti.required_fields
          | none => []
        let idStep := idChain ctx seen f frontmatter tyv
        let secDiags :=
          (if hasValidationCases then []
           else [⟨f.path, .info, .missingSection "## Validation Cases"⟩])
          ++ (if hasImplementationReferences then []
              else [⟨f.path, .info, .missingSection "## Implementation References"⟩])
        let refDiags :=
          match yget frontmatter "related" with
          | some rv => validate_references ctx idStep.1 f.path rv
          | none => []
        (idStep.1,
          reqDiags ++ idStep.2 ++ timestampDiags f.path frontmatter
            ++ statusDiags f.path frontmatter ++ secDiags ++ refDiags)

/-- A document as dispatched by `validate_file` (lines 648-662): the suffix
decides the validator; `.yml` is one error; other suffixes are skipped. -/
inductive SpecDoc where
  | yamlCase (f : SpecFile) (content : YVal)
  | ymlFile (f : SpecFile)
  | markdownSpec (f : SpecFile) (fm : Option YVal) (hasVC hasIR : Bool)
  | otherFile (f : SpecFile)

/-- Dispatch of `validate_file` on one document. -/
def validate_file (ctx : VCtx) (seen : List (String × String)) :
    SpecDoc → List (String × String) × List Diag
  | .yamlCase f c => validate_yaml_case ctx seen f c
  | .ymlFile f => (seen, [⟨f.path, .error, .ymlExt⟩])
  | .markdownSpec f fm hv hi => validate_markdown_spec ctx seen f fm hv hi
  | .otherFile _ => (seen, [])

/-- The validation pass of `validate_directory` (lines 715-724): every file is
validated in order, whatever diagnostics its predecessors produced, threading
`all_spec_ids` and accumulating diagnostics. -/
def validate_run (ctx : VCtx) (seen : List (String × String)) :
    List SpecDoc → List (String × String) × List Diag
  | [] => (seen, [])
  | d :: rest =>
    let r1 := validate_file ctx seen d
    let r2 := validate_run ctx r1.1 rest
    (r2.1, r1.2 ++ r2.2)

/-- The `all_spec_ids` map after processing a sequence of (identifier, path)
documents through `check_duplicate_id` in order. -/
def dupGo (seen : List (String × String)) : List (String × String) →
    List (String × String)
  | [] => seen
  | d :: rest => dupGo (check_duplicate_id seen d.1 d.2).1 rest

/-- The duplicate-identifier diagnostics `check_duplicate_id` records for a
document, given the (identifier, path) sequence of the documents processed
before it in the run. -/
def diags_for_doc (prior : List (String × String)) (doc : String × String) :
    List Diag :=
  (check_duplicate_id (dupGo [] prior) doc.1 doc.2).2

/-- Recognizer of duplicate-phase-identifier messages. -/
def Msg.isDupPhase : Msg → Bool
  | .duplicatePhaseId _ => true
  | _ => false

/-- The number of duplicate-phase-identifier error diagnostics in a list. -/
def countDuplicatePhase (diags : List Diag) : Nat :=
  (diags.filter (fun d => d.message.isDupPhase)).length

/-! ### Template introspection and registry cache
(`.specify/scripts/generate-type-registry.py`) -/

/-- Metadata extracted from one template by `extract_template_metadata`:
type name, identifier prefix (`pfx` models the `prefix` key), file extension,
naming guidelines, name examples, template path. -/
structure TMeta where
  tname : String
  pfx : String
  ext : String
  guidelines : String
  examples : List String
  template : String
deriving DecidableEq, Repr

/-- Outcome of `scan_templates`: either the process aborted via `sys.exit(1)`,
or it completed with the collected type map (insertion-ordered) and the number
of non-fatal duplicate-type warnings printed. -/
inductive ScanOutcome where
  | aborted
  | completed (types : List (String × TMeta)) (warnings : Nat)
deriving DecidableEq, Repr

/-- The template loop of `scan_templates` (generate-type-registry.py lines
135-153), threading the `self.types` map.  A file whose metadata extraction
returned `None` is skipped; a type name already present prints a warning and
skips the template (`continue`); otherwise a nonempty prefix equal to an
already-registered prefix is fatal (`sys.exit(1)`); otherwise the type is
registered. -/
def scan_templates_go (types : List (String × TMeta)) (warnings : Nat) :
    List (Option TMeta) → ScanOutcome
  | [] => .completed types warnings
  | none :: rest => scan_templates_go types warnings rest
  | some m :: rest =>
    if types.any (fun e => e.1 == m.tname) then
      scan_templates_go types (warnings + 1) rest
    else if types.any (fun e => e.2.pfx == m.pfx && m.pfx != "") then
      .aborted
    else
      scan_templates_go (types ++ [(m.tname, m)]) warnings rest

/-- Model of `scan_templates` over the extraction results of the template files, in
glob order. -/
def scan_templates (metas : List (Option TMeta)) : ScanOutcome :=
  scan_templates_go [] 0 metas

/-- The header emitted by `generate_registry` (lines 165-170), as the lines of
the generated file up to the blank separator.  The timestamp argument is the
preserved or freshly generated `# Last generated:` value. -/
def headerLines (ts : String) : List String :=
  ["# AUTO-GENERATED FILE - DO NOT EDIT",
   "# Generated from templates in .specify/templates/",
   "# Run: python .specify/scripts/generate-type-registry.py",
   "# Last generated: " ++ ts,
   ""]

/-- Sorting of `sorted(self.types.keys())` (line 176): registry entries in
ascending type-name order. -/
def sortTypes (types : List (String × TMeta)) : List (String × TMeta) :=
  types.mergeSort (fun a b => decide (a.1 ≤ b.1))

/-- Rendering of one registry entry, standing in for the `yaml.dump` block of
one type (deterministic pure serialization of the entry's five fields). -/
def yamlEntryLines (e : String × TMeta) : List String :=
  ["  " ++ e.1 ++ ":",
   "    prefix: " ++ e.2.pfx,
   "    extension: " ++ e.2.ext,
   "    guidelines: " ++ e.2.guidelines,
   "    examples: [" ++ String.intercalate ", " e.2.examples ++ "]",
   "    template: " ++ e.2.template]

/-- The `yaml.dump` payload of the registry (lines 172-187): the `types:`
mapping with entries in sorted order, and the file's trailing newline. -/
def registryYamlLines (types : List (String × TMeta)) : List String :=
  "types:" :: (((sortTypes types).map yamlEntryLines).flatten ++ [""])

/-- Model of `generate_registry` (lines 155-189): header followed by the serialized
registry, as the lines of the file content. -/
def generate_registry (types : List (String × TMeta)) (ts : String) : List String :=
  headerLines ts ++ registryYamlLines types

/-- Model of `extract_content_without_timestamp` (lines 191-195): every line of the
content except those starting with `# Last generated:`. -/
def extract_content_without_timestamp (lines : List String) : List String :=
  lines.filter (fun l => !(strStartsWith l "# Last generated:"))

/-- Model of `extract_timestamp` (lines 197-202): the value of the first
`# Last generated:` line, with the marker removed and whitespace stripped. -/
def extract_timestamp (lines : List String) : Option String :=
  (lines.find? (fun l => strStartsWith l "# Last generated:")).map
    (fun l => (l.drop ("# Last generated:".length)).trim)

/-- Result of `write_registry`: whether the file was (re)written, and the file
content after the call. -/
structure WriteResult where
  written : Bool
  content : List String
deriving DecidableEq, Repr

/-- Model of `write_registry` (lines 204-246).  `existing` is the current registry file
content when one exists.  Unless forced, the candidate content is generated
with the existing timestamp preserved and compared with the existing content
after excluding `# Last generated:` lines; on equality nothing is written.
Otherwise the registry is regenerated with the fresh timestamp `now` and
written. -/
def write_registry (existing : Option (List String)) (force : Bool)
    (types : List (String × TMeta)) (now : String) : WriteResult :=
  match (if force then none else existing) with
  | some ec =>
    if extract_content_without_timestamp ec
        = extract_content_without_timestamp
            (generate_registry types ((extract_timestamp ec).getD now)) then
      ⟨false, ec⟩
    else
      ⟨true, generate_registry types now⟩
  | none => ⟨true, generate_registry types now⟩

/-- The `--check` branch of `main` (lines 282-301): computes only an exit code
— 0 when the registry file exists and its content, excluding the
`# Last generated:` line, equals what regeneration would produce, 1 otherwise
— and never writes. -/
def registry_check (existing : Option (List String))
    (types : List (String × TMeta)) (now : String) : Nat :=
  match existing with
  | some ec =>
    if extract_content_without_timestamp ec
        = extract_content_without_timestamp
            (generate_registry types ((extract_timestamp ec).getD now)) then 0
    else 1
  | none => 1

end SpecifyTest

namespace SpecifyTest

/-- CLAIM C1: a (case, impl) timestamp pair with the case strictly newer is
classified by the whole-day delta: critical above 30 days, high in (7, 30]
days, medium in [1, 7] days, low below 1 day; a pair whose implementation
timestamp is at least the case timestamp is up to date.  The concrete
instances of the claim: 2024-02-05T00:00:00Z against 2024-01-01T00:00:00Z is a
35-day delta classified critical; a 3-day delta is medium; a nonpositive delta
is up to date. -/
theorem staleness_classification (caseTs implTs : Nat) :
    (classify_staleness caseTs implTs = .critical ↔
      implTs < caseTs ∧ 30 < days_stale caseTs implTs) ∧
    (classify_staleness caseTs implTs = .high ↔
      implTs < caseTs ∧ 7 < days_stale caseTs implTs ∧ days_stale caseTs implTs ≤ 30) ∧
    (classify_staleness caseTs implTs = .medium ↔
      implTs < caseTs ∧ 1 ≤ days_stale caseTs implTs ∧ days_stale caseTs implTs ≤ 7) ∧
    (classify_staleness caseTs implTs = .low ↔
      implTs < caseTs ∧ days_stale caseTs implTs < 1) ∧
    (classify_staleness caseTs implTs = .upToDate ↔ caseTs ≤ implTs) ∧
    days_stale (midnightUtc 2024 2 5) (midnightUtc 2024 1 1) = 35 ∧
    classify_staleness (midnightUtc 2024 2 5) (midnightUtc 2024 1 1) = .critical ∧
    classify_staleness (midnightUtc 2024 1 4) (midnightUtc 2024 1 1) = .medium ∧
    classify_staleness (midnightUtc 2024 1 1) (midnightUtc 2024 2 5) = .upToDate := by
  refine ⟨?_, ?_, ?_, ?_, ?_, by decide, by decide, by decide, by decide⟩ <;>
    · unfold classify_staleness
      split_ifs <;> simp_all <;> omega

/-- The index-driven loop of `find_implementation_references` is the
`filterMap` of the positional zip of the two match lists. -/
theorem pairReferences_go_eq (parse : String → Option Nat)
    (timestampMatches : List String) (caseMatches : List String) (i : Nat) :
    pairReferences.go parse timestampMatches i caseMatches
      = ((caseMatches.zip (timestampMatches.drop i)).filterMap
          (fun p => (parse p.2).map (fun t => (p.1, t)))) := by
  induction caseMatches generalizing i with
  | nil => simp [pairReferences.go]
  | cons c cs ih =>
    rw [pairReferences.go]
    cases h : timestampMatches[i]? with
    | none =>
      have hlen : timestampMatches.length ≤ i := by
        simpa using List.getElem?_eq_none_iff.mp h
      rw [List.drop_eq_nil_of_le hlen] at *
      simp [ih, List.drop_eq_nil_of_le (Nat.le_succ_of_le hlen)]
    | some t =>
      have hlt : i < timestampMatches.length := by
        by_contra hc
        rw [List.getElem?_eq_none_iff.mpr (Nat.le_of_not_lt hc)] at h
        exact Option.noConfusion h
      have hdrop : timestampMatches.drop i = t :: timestampMatches.drop (i + 1) := by
        rw [List.drop_eq_getElem_cons hlt]
        congr 1
        have := List.getElem?_eq_getElem hlt
        rw [this] at h
        exact Option.some.inj h
      rw [hdrop]
      cases hp : parse t <;> simp [ih, hp]

/-- CLAIM C9: the staleness analyzer pairs `Implements` matches with
`Case Timestamp` matches strictly by index of appearance: the collected pairs
are the `filterMap` of the positional zip; at most one pair per timestamp
match; surplus references beyond the number of timestamp matches are silently
dropped (truncating the reference list at that count changes nothing); and a
reference whose positional timestamp fails to parse is silently dropped with
no record.  No branch of the pairing loop emits a diagnostic. -/
theorem reference_pairing (parse : String → Option Nat)
    (caseMatches timestampMatches : List String) :
    pairReferences parse caseMatches timestampMatches
      = ((caseMatches.zip timestampMatches).filterMap
          (fun p => (parse p.2).map (fun t => (p.1, t)))) ∧
    (pairReferences parse caseMatches timestampMatches).length ≤ timestampMatches.length ∧
    pairReferences parse caseMatches timestampMatches
      = pairReferences parse (caseMatches.take timestampMatches.length) timestampMatches ∧
    (∀ c s cs ts, parse s = none →
      pairReferences parse (c :: cs) (s :: ts) = pairReferences parse cs ts) := by
  have key : ∀ (cm : List String),
      pairReferences parse cm timestampMatches
        = ((cm.zip timestampMatches).filterMap
            (fun p => (parse p.2).map (fun t => (p.1, t)))) := by
    intro cm
    rw [pairReferences, pairReferences_go_eq, List.drop_zero]
  refine ⟨key caseMatches, ?_, ?_, ?_⟩
  · calc (pairReferences parse caseMatches timestampMatches).length
        ≤ (caseMatches.zip timestampMatches).length := by
          rw [key]; exact List.length_filterMap_le _ _
      _ ≤ timestampMatches.length := by
          rw [List.length_zip]; exact Nat.min_le_right _ _
  · rw [key, key]
    congr 1
    rw [List.zip_eq_zipWith, List.zip_eq_zipWith]
    calc List.zipWith Prod.mk caseMatches timestampMatches
        = (List.zipWith Prod.mk caseMatches timestampMatches).take
            timestampMatches.length := by
          rw [List.take_of_length_le]
          rw [List.length_zipWith]
          exact Nat.min_le_right _ _
      _ = List.zipWith Prod.mk (caseMatches.take timestampMatches.length)
            (timestampMatches.take timestampMatches.length) := List.take_zipWith
      _ = List.zipWith Prod.mk (caseMatches.take timestampMatches.length)
            timestampMatches := by rw [List.take_length]
  · intro c s cs ts hnone
    rw [pairReferences, pairReferences_go_eq, pairReferences, pairReferences_go_eq]
    simp [hnone]

/-- Witness for `reference_pairing`: a failed parse at position 0 drops the
paired reference, on concrete inputs. -/
theorem reference_pairing_witness :
    pairReferences (fun s => if s == "1704067200" then some 1704067200 else none)
        ["a.py", "b.py"] ["bad", "1704067200"]
      = pairReferences (fun s => if s == "1704067200" then some 1704067200 else none)
        ["b.py"] ["1704067200"] :=
  (reference_pairing (fun s => if s == "1704067200" then some 1704067200 else none)
      ["a.py", "b.py"] ["bad", "1704067200"]).2.2.2
    "a.py" "bad" ["b.py"] ["1704067200"] (by decide)

/-- CLAIM C10: a timestamp value that the YAML parser already materialised as
a native `datetime` passes `validate_timestamp` immediately: the function
returns `True` and records no diagnostic, whatever instant the `datetime`
denotes, so neither the strict `YYYY-MM-DDTHH:MM:SSZ` pattern nor calendar
validity is ever checked for such values. -/
theorem timestamp_datetime_accepted (file : String) (epochSec : Int) :
    validate_timestamp file (.ydatetime epochSec) = (true, []) := rfl

/-- CLAIM C4: over an existing input path the run exits 1 exactly when at
least one error-severity diagnostic was recorded and 0 exactly when none was
(only warnings or info); the exit code is never anything else on that path. A
nonexistent input path exits 2 with no diagnostics recorded. -/
theorem run_exit_condition (diags : List Diag) :
    ((validation_main true diags).1 = 1 ↔ ∃ d ∈ diags, d.severity = .error) ∧
    ((validation_main true diags).1 = 0 ↔ ∀ d ∈ diags, d.severity ≠ .error) ∧
    ((validation_main true diags).1 = 0 ∨ (validation_main true diags).1 = 1) ∧
    validation_main false diags = (2, []) := by
  have hcount : 0 < severityCount diags .error ↔ ∃ d ∈ diags, d.severity = .error := by
    unfold severityCount
    rw [List.length_pos]
    constructor
    · intro h
      rcases List.exists_mem_of_ne_nil _ h with ⟨d, hd⟩
      have := List.mem_filter.mp hd
      exact ⟨d, this.1, by simpa using this.2⟩
    · rintro ⟨d, hmem, hsev⟩ hnil
      have : d ∈ List.filter (fun d => d.severity == Severity.error) diags :=
        List.mem_filter.mpr ⟨hmem, by simp [hsev]⟩
      rw [hnil] at this
      exact absurd this (List.not_mem_nil d)
  have hmain : validation_main true diags = (report_exit_code diags, diags) := rfl
  refine ⟨?_, ?_, ?_, rfl⟩
  · rw [hmain]
    unfold report_exit_code
    split_ifs with h
    · exact iff_of_true rfl (hcount.mp h)
    · exact iff_of_false (by norm_num) (fun hex => h (hcount.mpr hex))
  · rw [hmain]
    unfold report_exit_code
    split_ifs with h
    · refine iff_of_false (by norm_num) ?_
      rcases hcount.mp h with ⟨d, hmem, hsev⟩
      exact fun hall => hall d hmem hsev
    · refine iff_of_true rfl ?_
      intro d hmem hsev
      exact h (hcount.mpr ⟨d, hmem, hsev⟩)
  · rw [hmain]
    unfold report_exit_code
    split_ifs <;> simp

/-- Witness for `run_exit_condition`: one error diagnostic makes the run exit
1; a warning-only run exits 0. -/
theorem run_exit_condition_witness :
    (validation_main true [⟨"a.yaml", .error, .missingType⟩]).1 = 1 ∧
    (validation_main true [⟨"a.yaml", .warning, .unknownSpecType (.ystr "X")⟩]).1 = 0 :=
  ⟨(run_exit_condition [⟨"a.yaml", .error, .missingType⟩]).1.mpr
      ⟨⟨"a.yaml", .error, .missingType⟩, List.mem_singleton.mpr rfl, rfl⟩,
    (run_exit_condition [⟨"a.yaml", .warning, .unknownSpecType (.ystr "X")⟩]).2.1.mpr
      (by intro d hd hsev
          rw [List.mem_singleton] at hd
          rw [hd] at hsev
          exact absurd hsev (by simp))⟩

/-- COUNTEREXAMPLE to CLAIM C2: two templates declaring the same type name
(`TestCase`, with distinct prefixes so no prefix conflict intervenes) do NOT
abort registry construction — the scan completes, registering the first
template and skipping the second with one warning. -/
theorem duplicate_type_not_fatal :
    scan_templates
        [some ⟨"TestCase", "TC", "yaml", "", [], "t1.yaml"⟩,
         some ⟨"TestCase", "SC", "yaml", "", [], "t2.yaml"⟩]
      = .completed [("TestCase", ⟨"TestCase", "TC", "yaml", "", [], "t1.yaml"⟩)] 1 := by
  decide

/-- CLAIM C2 (amended): during template introspection, two templates declaring
the same nonempty identifier prefix under distinct type names abort registry
construction entirely (`sys.exit(1)`), whatever templates follow; a duplicate
type name is not fatal: the later template is skipped with a warning and
construction continues over the remaining templates with the registry
unchanged. -/
theorem registry_conflict_handling (m1 m2 : TMeta) (rest : List (Option TMeta)) :
    (m1.tname ≠ m2.tname → m1.pfx = m2.pfx → m1.pfx ≠ "" →
      scan_templates (some m1 :: some m2 :: rest) = .aborted) ∧
    (m1.tname = m2.tname →
      scan_templates (some m1 :: some m2 :: rest)
        = scan_templates_go [(m1.tname, m1)] 1 rest) := by
  have step1 : scan_templates (some m1 :: some m2 :: rest)
      = scan_templates_go [(m1.tname, m1)] 0 (some m2 :: rest) := by
    show scan_templates_go [] 0 (some m1 :: some m2 :: rest) = _
    rw [scan_templates_go]
    simp
  constructor
  · intro hty hpfx hne
    have hne2 : m2.pfx ≠ "" := by rw [← hpfx]; exact hne
    rw [step1, scan_templates_go]
    have h1 : ([(m1.tname, m1)].any (fun e => e.1 == m2.tname)) = false := by
      simp [hty]
    have h2 : ([(m1.tname, m1)].any (fun e => e.2.pfx == m2.pfx && m2.pfx != "")) = true := by
      simp [hpfx, hne2]
    rw [h1, h2]
    simp
  · intro hty
    rw [step1, scan_templates_go]
    have h1 : ([(m1.tname, m1)].any (fun e => e.1 == m2.tname)) = true := by
      simp [hty]
    rw [h1]
    simp

/-- Witness for `registry_conflict_handling`: a concrete prefix conflict
aborts; a concrete type-name duplicate continues. -/
theorem registry_conflict_handling_witness :
    scan_templates
        [some ⟨"TestCase", "TC", "yaml", "", [], "t1.yaml"⟩,
         some ⟨"ScenarioCase", "TC", "yaml", "", [], "t2.yaml"⟩]
      = .aborted ∧
    scan_templates
        [some ⟨"TestCase", "TC", "yaml", "", [], "t1.yaml"⟩,
         some ⟨"TestCase", "SC", "yaml", "", [], "t2.yaml"⟩]
      = scan_templates_go
          [("TestCase", ⟨"TestCase", "TC", "yaml", "", [], "t1.yaml"⟩)] 1 [] :=
  ⟨(registry_conflict_handling ⟨"TestCase", "TC", "yaml", "", [], "t1.yaml"⟩
        ⟨"ScenarioCase", "TC", "yaml", "", [], "t2.yaml"⟩ []).1
      (by decide) (by decide) (by decide),
    (registry_conflict_handling ⟨"TestCase", "TC", "yaml", "", [], "t1.yaml"⟩
        ⟨"TestCase", "SC", "yaml", "", [], "t2.yaml"⟩ []).2 (by decide)⟩

/-- Excluding the `# Last generated:` line from a generated registry leaves
content independent of the timestamp used: only the header's timestamp line
mentions it, and the filter drops exactly that line. -/
theorem extract_generate (types : List (String × TMeta)) (ts : String) :
    extract_content_without_timestamp (generate_registry types ts)
      = ["# AUTO-GENERATED FILE - DO NOT EDIT",
         "# Generated from templates in .specify/templates/",
         "# Run: python .specify/scripts/generate-type-registry.py",
         ""]
        ++ (registryYamlLines types).filter
            (fun l => !(strStartsWith l "# Last generated:")) := by
  unfold generate_registry extract_content_without_timestamp headerLines
  rw [List.filter_append]
  rfl

/-- CLAIM C3: regenerating the registry from an unchanged template set is
idempotent: whatever timestamps the two generations carry, the contents are
identical once `# Last generated:` lines are excluded; a second
`write_registry` run over the existing file reports it unchanged
(`written = false`) and leaves the content untouched unless forced; and check
mode answers 0 (up to date) for it, computing only an exit code and writing
nothing. -/
theorem registry_idempotence (types : List (String × TMeta)) (ts0 ts1 : String) :
    extract_content_without_timestamp (generate_registry types ts1)
      = extract_content_without_timestamp (generate_registry types ts0) ∧
    write_registry (some (generate_registry types ts0)) false types ts1
      = ⟨false, generate_registry types ts0⟩ ∧
    write_registry (some (generate_registry types ts0)) true types ts1
      = ⟨true, generate_registry types ts1⟩ ∧
    registry_check (some (generate_registry types ts0)) types ts1 = 0 := by
  have hcore : ∀ tsA tsB : String,
      extract_content_without_timestamp (generate_registry types tsA)
        = extract_content_without_timestamp (generate_registry types tsB) := by
    intro tsA tsB
    rw [extract_generate, extract_generate]
  refine ⟨hcore ts1 ts0, ?_, rfl, ?_⟩
  · unfold write_registry
    exact if_pos (hcore ts0 _)
  · unfold registry_check
    exact if_pos (hcore ts0 _)

/-- CLAIM C7: a parsed record that is a nonempty mapping without a `type`
field receives exactly one error diagnostic and no other rule check runs on
it: the document validator returns immediately with that single diagnostic and
an unchanged identifier map, the batch run proceeds to the remaining
documents, and the Markdown validator behaves the same for frontmatter
without a `type` field. -/
theorem missing_type_single_error (ctx : VCtx) (seen : List (String × String))
    (f : SpecFile) (es : List (String × YVal)) (rest : List SpecDoc)
    (hne : es ≠ [])
    (hty : yget (.ydict es) "type" = none) :
    validate_yaml_case ctx seen f (.ydict es) = (seen, [⟨f.path, .error, .missingType⟩]) ∧
    (validate_run ctx seen (.yamlCase f (.ydict es) :: rest)).2
      = ⟨f.path, .error, .missingType⟩ :: (validate_run ctx seen rest).2 ∧
    (validate_run ctx seen (.yamlCase f (.ydict es) :: rest)).1
      = (validate_run ctx seen rest).1 ∧
    (∀ (fm : List (String × YVal)) (hv hi : Bool),
      yget (.ydict fm) "type" = none →
      validate_markdown_spec ctx seen f (some (.ydict fm)) hv hi
        = (seen, [⟨f.path, .error, .missingTypeFrontmatter⟩])) := by
  have h1 : validate_yaml_case ctx seen f (.ydict es)
      = (seen, [⟨f.path, .error, .missingType⟩]) := by
    rcases List.exists_cons_of_ne_nil hne with ⟨a, as, rfl⟩
    unfold validate_yaml_case
    rw [hty]
    rfl
  refine ⟨h1, ?_, ?_, ?_⟩
  · rw [validate_run]
    show (validate_file ctx seen (.yamlCase f (.ydict es))).2
        ++ (validate_run ctx (validate_file ctx seen (.yamlCase f (.ydict es))).1 rest).2 = _
    rw [validate_file, h1]
    rfl
  · rw [validate_run]
    show (validate_run ctx (validate_file ctx seen (.yamlCase f (.ydict es))).1 rest).1 = _
    rw [validate_file, h1]
  · intro fm hv hi hty2
    simp only [validate_markdown_spec]
    rw [hty2]

/-- Witness for `missing_type_single_error`: a concrete two-field record
without `type` in a two-document batch. -/
theorem missing_type_single_error_witness :
    validate_yaml_case ⟨[], true, false⟩ [] ⟨"a.yaml", "a", ".yaml"⟩
        (.ydict [("name", .ystr "x")])
      = ([], [⟨"a.yaml", .error, .missingType⟩]) ∧
    (validate_run ⟨[], true, false⟩ []
        [.yamlCase ⟨"a.yaml", "a", ".yaml"⟩ (.ydict [("name", .ystr "x")]),
         .otherFile ⟨"b.txt", "b", ".txt"⟩]).2
      = ⟨"a.yaml", .error, .missingType⟩
          :: (validate_run ⟨[], true, false⟩ [] [.otherFile ⟨"b.txt", "b", ".txt"⟩]).2 :=
  have h := missing_type_single_error ⟨[], true, false⟩ [] ⟨"a.yaml", "a", ".yaml"⟩
    [("name", .ystr "x")] [.otherFile ⟨"b.txt", "b", ".txt"⟩]
    (by simp) rfl
  ⟨h.1, h.2.1⟩

/-- The `all_spec_ids` map built by threading `check_duplicate_id` records the
first-seen path of every identifier: looking one up equals finding its first
occurrence in the processed sequence. -/
theorem dupGo_find (x : String) (l : List (String × String))
    (seen : List (String × String)) :
    (dupGo seen l).find? (fun e => e.1 == x)
      = ((seen.find? (fun e => e.1 == x)).or (l.find? (fun e => e.1 == x))) := by
  induction l generalizing seen with
  | nil => simp [dupGo]
  | cons d rest ih =>
    cases hfound : seen.find? (fun e => e.1 == d.1) with
    | some e =>
      have hstep : (check_duplicate_id seen d.1 d.2).1 = seen := by
        unfold check_duplicate_id; rw [hfound]
      rw [dupGo, hstep, ih, List.find?_cons]
      by_cases hdx : d.1 = x
      · have hseenx : seen.find? (fun e => e.1 == x) = some e := by
          rw [← hdx]; exact hfound
        simp [hseenx, hdx]
      · simp [show (d.1 == x) = false from by simpa using hdx]
    | none =>
      have hstep : (check_duplicate_id seen d.1 d.2).1 = seen ++ [(d.1, d.2)] := by
        unfold check_duplicate_id; rw [hfound]
      rw [dupGo, hstep, ih, List.find?_append, Option.or_assoc]
      congr 1
      rw [List.find?_cons]
      by_cases hdx : d.1 = x
      · subst hdx
        simp
      · simp [show (d.1 == x) = false from by simpa using hdx]

/-- CLAIM C6: in a run processing documents in order through the duplicate
check, a document whose identifier has not appeared before receives no
duplicate-identifier diagnostic, and a later document with the same
identifier receives exactly one duplicate-identifier error naming the first
document's path — whatever documents sit in between or after. -/
theorem duplicate_id_reporting (pre mid : List (String × String))
    (d1 d2 : String × String)
    (hid : d1.1 = d2.1) (hpre : ∀ p ∈ pre, p.1 ≠ d1.1) :
    diags_for_doc pre d1 = [] ∧
    diags_for_doc (pre ++ d1 :: mid) d2
      = [⟨d2.2, .error, .duplicateSpecId d2.1 d1.2⟩] := by
  have hprenone : pre.find? (fun e => e.1 == d1.1) = none := by
    rw [List.find?_eq_none]
    intro p hp
    simpa using hpre p hp
  constructor
  · unfold diags_for_doc check_duplicate_id
    rw [dupGo_find]
    simp [hprenone]
  · unfold diags_for_doc check_duplicate_id
    have hprenone2 : pre.find? (fun e => e.1 == d2.1) = none := by
      rw [← hid]; exact hprenone
    rw [dupGo_find, List.find?_append, hprenone2, List.find?_cons]
    simp [show (d1.1 == d2.1) = true from by simpa using hid]

/-- Witness for `duplicate_id_reporting`: two concrete documents sharing
`TC-001`, with an unrelated document between them. -/
theorem duplicate_id_reporting_witness :
    diags_for_doc [] ("TC-001", "a.yaml") = [] ∧
    diags_for_doc [("TC-001", "a.yaml"), ("TC-002", "c.yaml")] ("TC-001", "b.yaml")
      = [⟨"b.yaml", .error, .duplicateSpecId "TC-001" "a.yaml"⟩] :=
  duplicate_id_reporting [] [("TC-002", "c.yaml")]
    ("TC-001", "a.yaml") ("TC-001", "b.yaml") rfl (by simp)

/-- The literal matcher `matchLiteral` succeeds exactly on inputs extending the literal. -/
theorem matchLiteral_eq_some (ps : List Char) (cs rest : List Char) :
    matchLiteral ps cs = some rest ↔ cs = ps ++ rest := by
  induction ps generalizing cs with
  | nil => simp [matchLiteral]
  | cons p ps ih =>
    cases cs with
    | nil => simp [matchLiteral]
    | cons c cs' =>
      rw [matchLiteral]
      by_cases hpc : p = c
      · subst hpc
        simp [ih]
      · simp [show (p == c) = false from by simpa using hpc, hpc, Ne.symm hpc]

/-- Semantics of `moreDigits`: all digits, or digits followed by one final
newline. -/
theorem moreDigits_iff (cs : List Char) :
    moreDigits cs = true ↔
      ((∀ c ∈ cs, c.isDigit) ∨ ∃ ds, cs = ds ++ ['\n'] ∧ ∀ c ∈ ds, c.isDigit) := by
  induction cs with
  | nil => simp [moreDigits]
  | cons c cs ih =>
    rw [moreDigits]
    by_cases hd : c.isDigit
    · rw [if_pos hd, ih]
      constructor
      · rintro (hall | ⟨ds, rfl, hds⟩)
        · refine Or.inl ?_
          intro x hx
          rcases List.mem_cons.mp hx with rfl | hx
          · exact hd
          · exact hall x hx
        · refine Or.inr ⟨c :: ds, rfl, ?_⟩
          intro x hx
          rcases List.mem_cons.mp hx with rfl | hx
          · exact hd
          · exact hds x hx
      · rintro (hall | ⟨ds, heq, hds⟩)
        · exact Or.inl (fun x hx => hall x (List.mem_cons_of_mem _ hx))
        · cases ds with
          | nil =>
            simp only [List.nil_append, List.cons.injEq] at heq
            rcases heq with ⟨rfl, rfl⟩
            exact absurd hd (by decide)
          | cons d ds' =>
            rw [List.cons_append, List.cons.injEq] at heq
            rcases heq with ⟨rfl, h2⟩
            exact Or.inr ⟨ds', h2, fun x hx => hds x (List.mem_cons_of_mem _ hx)⟩
    · rw [if_neg hd]
      constructor
      · intro h
        rcases Bool.and_eq_true_iff.mp h with ⟨h1, h2⟩
        have hc : c = '\n' := by simpa using h1
        have hcs : cs = [] := by simpa using h2
        subst hc; subst hcs
        exact Or.inr ⟨[], rfl, by simp⟩
      · rintro (hall | ⟨ds, heq, hds⟩)
        · exact absurd (hall c (List.mem_cons_self c cs)) (by simpa using hd)
        · cases ds with
          | nil =>
            simp only [List.nil_append, List.cons.injEq] at heq
            rcases heq with ⟨rfl, rfl⟩
            decide
          | cons d ds' =>
            rw [List.cons_append, List.cons.injEq] at heq
            rcases heq with ⟨rfl, h2⟩
            exact absurd (hds c (List.mem_cons_self c ds')) (by simpa using hd)

/-- Semantics of `idTailMatches`: a nonempty block of digits, optionally
followed by a final newline. -/
theorem idTailMatches_iff (cs : List Char) :
    idTailMatches cs = true ↔
      ∃ ds, ds ≠ [] ∧ (∀ c ∈ ds, c.isDigit) ∧ (cs = ds ∨ cs = ds ++ ['\n']) := by
  cases cs with
  | nil =>
    rw [idTailMatches]
    constructor
    · intro h; exact absurd h (by simp)
    · rintro ⟨ds, hne, _, rfl | heq⟩
      · exact absurd rfl hne
      · exact absurd heq.symm (List.append_ne_nil_of_right_ne_nil ds (by simp))
  | cons c cs' =>
    rw [idTailMatches, Bool.and_eq_true_iff, moreDigits_iff]
    constructor
    · rintro ⟨hd, hall | ⟨ds, rfl, hds⟩⟩
      · refine ⟨c :: cs', by simp, ?_, Or.inl rfl⟩
        intro x hx
        rcases List.mem_cons.mp hx with rfl | hx
        · exact hd
        · exact hall x hx
      · refine ⟨c :: ds, by simp, ?_, Or.inr (by rw [List.cons_append])⟩
        intro x hx
        rcases List.mem_cons.mp hx with rfl | hx
        · exact hd
        · exact hds x hx
    · rintro ⟨ds, hne, hds, rfl | heq⟩
      · exact ⟨hds c (List.mem_cons_self c cs'),
          Or.inl (fun x hx => hds x (List.mem_cons_of_mem _ hx))⟩
      · cases ds with
        | nil => exact absurd rfl hne
        | cons d ds' =>
          rw [List.cons_append, List.cons.injEq] at heq
          rcases heq with ⟨rfl, rfl⟩
          exact ⟨hds c (List.mem_cons_self c ds'),
            Or.inr ⟨ds', rfl, fun x hx => hds x (List.mem_cons_of_mem _ hx)⟩⟩

/-- Semantics of `idMatches`: the registered prefix, a hyphen, then one or
more digits to the end of the identifier (with Python `$` tolerating one
final newline). -/
theorem idMatches_iff (pfx sid : String) :
    idMatches pfx sid = true ↔
      ∃ ds : List Char, ds ≠ [] ∧ (∀ c ∈ ds, c.isDigit) ∧
        (sid.data = pfx.data ++ '-' :: ds
          ∨ sid.data = pfx.data ++ '-' :: (ds ++ ['\n'])) := by
  unfold idMatches
  cases hm : matchLiteral (pfx.data ++ ['-']) sid.data with
  | none =>
    constructor
    · intro h; exact absurd h (by simp)
    · rintro ⟨ds, hne, hds, heq | heq⟩
      · have heq2 : sid.data = (pfx.data ++ ['-']) ++ ds := by
          rw [heq]; simp
        rw [(matchLiteral_eq_some _ _ _).mpr heq2] at hm
        exact Option.noConfusion hm
      · have heq2 : sid.data = (pfx.data ++ ['-']) ++ (ds ++ ['\n']) := by
          rw [heq]; simp
        rw [(matchLiteral_eq_some _ _ _).mpr heq2] at hm
        exact Option.noConfusion hm
  | some rest =>
    have hcs : sid.data = (pfx.data ++ ['-']) ++ rest := (matchLiteral_eq_some _ _ _).mp hm
    rw [idTailMatches_iff]
    constructor
    · rintro ⟨ds, hne, hds, heq | heq⟩
      · exact ⟨ds, hne, hds, Or.inl (by rw [hcs, heq]; simp)⟩
      · exact ⟨ds, hne, hds, Or.inr (by rw [hcs, heq]; simp)⟩
    · rintro ⟨ds, hne, hds, heq | heq⟩
      · refine ⟨ds, hne, hds, Or.inl ?_⟩
        rw [hcs] at heq
        rw [show pfx.data ++ '-' :: ds = (pfx.data ++ ['-']) ++ ds from by simp] at heq
        exact List.append_cancel_left heq
      · refine ⟨ds, hne, hds, Or.inr ?_⟩
        rw [hcs] at heq
        rw [show pfx.data ++ '-' :: (ds ++ ['\n'])
            = (pfx.data ++ ['-']) ++ (ds ++ ['\n']) from by simp] at heq
        exact List.append_cancel_left heq

/-- CLAIM C5: for a document whose declared type has a registered template,
`validate_id_format` yields no diagnostic exactly when the identifier is the
registered prefix, a hyphen and one or more digits, and any deviation yields
exactly one error diagnostic; a declared type with no registered template
yields exactly one warning (not an error). -/
theorem id_format_validation (ctx : VCtx) (sid : String) (tyv : YVal)
    (ti : TypeInfo) (file : String) :
    (lookupType ctx tyv = some ti →
      validate_id_format ctx sid tyv file
        = (if idMatches ti.pfx sid then []
           else [⟨file, .error, .invalidIdFormat sid ti.pfx tyv⟩]) ∧
      (validate_id_format ctx sid tyv file = [] ↔
        ∃ ds : List Char, ds ≠ [] ∧ (∀ c ∈ ds, c.isDigit) ∧
          (sid.data = ti.pfx.data ++ '-' :: ds
            ∨ sid.data = ti.pfx.data ++ '-' :: (ds ++ ['\n'])))) ∧
    (lookupType ctx tyv = none →
      validate_id_format ctx sid tyv file = [⟨file, .warning, .unknownSpecType tyv⟩]) := by
  constructor
  · intro hti
    have heq : validate_id_format ctx sid tyv file
        = (if idMatches ti.pfx sid then []
           else [⟨file, .error, .invalidIdFormat sid ti.pfx tyv⟩]) := by
      unfold validate_id_format
      rw [hti]
    refine ⟨heq, ?_⟩
    rw [heq, ← idMatches_iff]
    by_cases hm : idMatches ti.pfx sid = true
    · simp [hm]
    · simp [hm]
  · intro hnone
    unfold validate_id_format
    rw [hnone]

/-- Witness for `id_format_validation`: a registry with the `TC` prefix
accepts `TC-001`, rejects `TC-1a`, and an unregistered type warns. -/
theorem id_format_validation_witness :
    validate_id_format ⟨[("TestCase", ⟨"TC", ["id"]⟩)], true, false⟩ "TC-001"
        (.ystr "TestCase") "a.yaml" = [] ∧
    validate_id_format ⟨[("TestCase", ⟨"TC", ["id"]⟩)], true, false⟩ "TC-1a"
        (.ystr "TestCase") "a.yaml"
      = [⟨"a.yaml", .error, .invalidIdFormat "TC-1a" "TC" (.ystr "TestCase")⟩] ∧
    validate_id_format ⟨[("TestCase", ⟨"TC", ["id"]⟩)], true, false⟩ "SC-001"
        (.ystr "ScenarioCase") "a.yaml"
      = [⟨"a.yaml", .warning, .unknownSpecType (.ystr "ScenarioCase")⟩] := by
  refine ⟨?_, ?_, ?_⟩
  · rw [((id_format_validation ⟨[("TestCase", ⟨"TC", ["id"]⟩)], true, false⟩ "TC-001"
        (.ystr "TestCase") ⟨"TC", ["id"]⟩ "a.yaml").1 rfl).1]
    rfl
  · rw [((id_format_validation ⟨[("TestCase", ⟨"TC", ["id"]⟩)], true, false⟩ "TC-1a"
        (.ystr "TestCase") ⟨"TC", ["id"]⟩ "a.yaml").1 rfl).1]
    rfl
  · exact (id_format_validation ⟨[("TestCase", ⟨"TC", ["id"]⟩)], true, false⟩ "SC-001"
        (.ystr "ScenarioCase") ⟨"TC", ["id"]⟩ "a.yaml").2 rfl

/-- Duplicate-phase counting distributes over concatenation. -/
theorem countDup_append (a b : List Diag) :
    countDuplicatePhase (a ++ b) = countDuplicatePhase a + countDuplicatePhase b := by
  simp [countDuplicatePhase, List.filter_append]

/-- Required-field errors are never duplicate-phase errors. -/
theorem countDup_missingFields (file : String) (pos : Nat) (ph : YVal) :
    countDuplicatePhase (phaseMissingFieldDiags file pos ph) = 0 := by
  unfold phaseMissingFieldDiags
  generalize requiredPhaseFields = fields
  induction fields with
  | nil => rfl
  | cons fd fds ih =>
    rw [List.filterMap_cons]
    by_cases h : yhasKey ph fd = true
    · rw [if_pos h]
      exact ih
    · rw [if_neg h]
      simpa [countDuplicatePhase, Msg.isDupPhase] using ih

/-- Case-path diagnostics are never duplicate-phase errors. -/
theorem countDup_casePath (file path expected : String) :
    countDuplicatePhase (validate_case_path file path expected) = 0 := by
  unfold validate_case_path
  split_ifs <;> rfl

/-- One reference entry's diagnostics are never duplicate-phase errors. -/
theorem countDup_refEntry (file : String) (pid : Option YVal) (isPre : Bool)
    (pos : Nat) (x : YVal) :
    countDuplicatePhase (refEntryDiags file pid isPre pos x) = 0 := by
  cases x with
  | ydict es =>
    unfold refEntryDiags
    cases hy : yget (.ydict es) "path" with
    | none =>
      cases isPre <;> rfl
    | some v =>
      cases v with
      | ystr s => exact countDup_casePath file s (if isPre then "PC" else "TC")
      | yint n => rfl
      | ybool b => rfl
      | ydatetime t => rfl
      | ynull => rfl
      | ylist l => rfl
      | ydict es2 => rfl
  | ystr s => rfl
  | yint n => rfl
  | ybool b => rfl
  | ydatetime t => rfl
  | ynull => rfl
  | ylist l => rfl

/-- Reference-entry diagnostics are never duplicate-phase errors. -/
theorem countDup_refEntries (file : String) (pid : Option YVal) (isPre : Bool)
    (pos : Nat) (xs : List YVal) :
    countDuplicatePhase (refEntriesDiags file pid isPre pos xs) = 0 := by
  induction xs generalizing pos with
  | nil => rfl
  | cons x rest ih =>
    rw [refEntriesDiags, countDup_append, countDup_refEntry, ih]

/-- Reference-list diagnostics are never duplicate-phase errors. -/
theorem countDup_caseRef (file : String) (pid : Option YVal) (isPre : Bool)
    (v : YVal) :
    countDuplicatePhase (caseRefDiags file pid isPre v) = 0 := by
  cases v with
  | ylist xs => exact countDup_refEntries file pid isPre 1 xs
  | ystr s => cases isPre <;> rfl
  | yint n => cases isPre <;> rfl
  | ybool b => cases isPre <;> rfl
  | ydatetime t => cases isPre <;> rfl
  | ynull => cases isPre <;> rfl
  | ydict es => cases isPre <;> rfl

/-- CLAIM C8: a ScenarioCase record whose `phases` list holds exactly two
dictionary phases both declaring phase identifier `"P1"` receives exactly one
duplicate-phase-identifier error diagnostic from phase validation, fired at
the second occurrence (the first phase's identifier is fresh when recorded).
The first phase's reference lists are assumed exception-free
(`phaseClean`), the fragment on which the Python loop reaches the second
phase. -/
theorem scenario_duplicate_phase (file : String) (content : YVal)
    (e1 e2 : List (String × YVal))
    (hph : yget content "phases" = some (.ylist [.ydict e1, .ydict e2]))
    (hid1 : yget (.ydict e1) "phase_id" = some (.ystr "P1"))
    (hid2 : yget (.ydict e2) "phase_id" = some (.ystr "P1"))
    (hclean : phaseClean (.ydict e1) = true) :
    countDuplicatePhase (validate_scenario_phases file content) = 1 := by
  have h0 : validate_scenario_phases file content
      = phasesLoopDiags file 1 [] [.ydict e1, .ydict e2] := by
    unfold validate_scenario_phases
    rw [hph]
    rfl
  have htru : ytruthy (.ystr "P1") = true := rfl
  have hc1 : List.contains ([] : List YVal) (.ystr "P1") = false := rfl
  have hc2 : List.contains [YVal.ystr "P1"] (.ystr "P1") = true := rfl
  have step1 : phasesLoopDiags file 1 [] [.ydict e1, .ydict e2]
      = phaseMissingFieldDiags file 1 (.ydict e1)
        ++ caseRefDiags file (some (.ystr "P1")) true
            ((yget (.ydict e1) "preconditions").getD (.ylist []))
        ++ caseRefDiags file (some (.ystr "P1")) false
            ((yget (.ydict e1) "test_cases").getD (.ylist []))
        ++ phasesLoopDiags file 2 [.ystr "P1"] [.ydict e2] := by
    rw [phasesLoopDiags]
    simp only [hid1, htru, hc1, Bool.true_and, Bool.false_eq_true, if_false, if_true,
      List.nil_append]
    simp
  have step2 : phasesLoopDiags file 2 [.ystr "P1"] [.ydict e2]
      = phaseMissingFieldDiags file 2 (.ydict e2)
        ++ ([⟨file, .error, .duplicatePhaseId (.ystr "P1")⟩]
            ++ caseRefDiags file (some (.ystr "P1")) true
                ((yget (.ydict e2) "preconditions").getD (.ylist []))
            ++ caseRefDiags file (some (.ystr "P1")) false
                ((yget (.ydict e2) "test_cases").getD (.ylist []))) := by
    rw [phasesLoopDiags]
    simp only [hid2, htru, hc2, Bool.true_and, if_true]
    simp [phasesLoopDiags]
  rw [h0, step1, step2]
  simp only [countDup_append, countDup_missingFields, countDup_caseRef]
  rfl

/-- Witness for `scenario_duplicate_phase`: a concrete record with two phases
both declaring `P1`. -/
theorem scenario_duplicate_phase_witness :
    countDuplicatePhase (validate_scenario_phases "s.yaml"
        (.ydict [("phases", .ylist
          [.ydict [("phase_id", .ystr "P1")],
           .ydict [("phase_id", .ystr "P1")]])])) = 1 :=
  scenario_duplicate_phase "s.yaml"
    (.ydict [("phases", .ylist
      [.ydict [("phase_id", .ystr "P1")],
       .ydict [("phase_id", .ystr "P1")]])])
    [("phase_id", .ystr "P1")] [("phase_id", .ystr "P1")]
    rfl rfl rfl rfl

end SpecifyTest
